import Mathlib

/-!
Verification model of the session core of `src/web_app.py` (classes
`SessionManager` and `WebAgentApp`).  Python dictionaries holding the
per-session records become an association list from session identifier to a
`Session` structure; the SocketIO emits become an explicit list of `Event`
values returned by each handler; calls into the Selenium-backed automation
handle become an explicit list of `HandleCall` values; wall-clock timestamps
are threaded as `Nat` arguments where the source stores `datetime.now()`.
Operations of the external world (the browser driver, the filesystem for
screenshots) that may fail or return data are supplied by explicit oracle
structures, one flag or value per call site of the source.
-/

namespace WebApp

/-- Mirrors the Selenium driver state that `web_app.py` reads and writes:
`driver.current_url` and `driver.title`. -/
structure Driver where
  current_url : String
  title : String
deriving DecidableEq, Repr

/-- The automation handle (`MegaAdvancedBrowserAgent` instance).  `agent_id`
models object identity, so that two distinct allocations are distinguishable;
`driver` mirrors the `agent.driver` attribute, `none` standing for the
attribute being absent or `None`. -/
structure Agent where
  agent_id : Nat
  driver : Option Driver
deriving DecidableEq, Repr

/-- One entry of the `actions_taken` list: `{action: name, status: ...}`. -/
structure ActionEntry where
  action : String
  status : String
deriving DecidableEq, Repr

/-- One record of `message_history`: the `type`, `content` and `actions_taken`
keys of the source dictionaries (timestamps omitted). -/
structure Message where
  mtype : String
  content : String
  actions_taken : List ActionEntry
deriving DecidableEq, Repr

/-- The per-session record of `SessionManager.sessions`, field for field the
dictionary built in `create_session` (lines 59-70 and 79-91).  `streaming`
models the `streaming` key, absent at creation and read with
`session.get("streaming", False)`, so it defaults to `false`. -/
structure Session where
  id : String
  agent : Option Agent
  created_at : Nat
  last_activity : Nat
  status : String
  user_data : List (String × String)
  message_history : List Message
  browser_url : String
  browser_title : String
  browser_initialized : Bool
  streaming : Bool := false
  error : Option String := none
deriving DecidableEq, Repr

/-- Cursor indicator sample from the injected page overlay. -/
structure CursorInfo where
  x : Int
  y : Int
  visible : Bool
deriving DecidableEq, Repr

/-- Outbound SocketIO events of `web_app.py`, one constructor per event name
the handlers emit, carrying the payload fields the claims talk about. -/
inductive Event where
  | connected (session_id : String)
  | message_received (content : String)
  | typing_start
  | typing_stop
  | status_update (status : String) (message : String)
  | error (message : String)
  | agent_response (content : String) (actions_taken : List ActionEntry)
  | browser_info (url : String) (title : String)
  | browser_screenshot
  | browser_control_result (action : String) (success : Bool) (message : String)
  | stream_started (message : String)
  | stream_stopped (message : String)
  | browser_stream_frame (cursor : CursorInfo) (url : String) (title : String)
deriving DecidableEq, Repr

/-- Calls into the automation handle, one constructor per call site of
`web_app.py`: `_initialize_driver`, `_initialize_advanced_visual_elements`,
`driver.get`, reads of `driver.current_url` and `driver.title`,
`driver.find_element`, `send_keys`, the RETURN key press,
`save_advanced_screenshot`, `driver.execute_script` and `cleanup`. -/
inductive HandleCall where
  | init_driver
  | init_visual
  | navigate (url : String)
  | read_current_url
  | read_title
  | find_element (selector : String)
  | send_keys (text : String)
  | send_return
  | save_screenshot
  | execute_script
  | cleanup
deriving DecidableEq, Repr

/-- Association-list lookup, the model of `dict.get` / `in` on
`SessionManager.sessions` (keys are unique, so first match is the match). -/
def lookupK : List (String × Session) → String → Option Session
  | [], _ => none
  | p :: t, k => if p.1 = k then some p.2 else lookupK t k

/-- Association-list key removal, the model of `del self.sessions[id]`. -/
def eraseK : List (String × Session) → String → List (String × Session)
  | [], _ => []
  | p :: t, k => if p.1 = k then eraseK t k else p :: eraseK t k

/-- In-place mutation of the record stored under a key, the model of writing
through the shared session dictionary. -/
def updateK : List (String × Session) → String → (Session → Session) → List (String × Session)
  | [], _, _ => []
  | p :: t, k, f => if p.1 = k then (p.1, f p.2) :: updateK t k f else p :: updateK t k f

/-- The state of the `SessionManager`: the session table plus an allocation
counter that hands out the identity of each freshly constructed automation
handle (so a second allocation is observable as a counter increment). -/
structure SessionManager where
  sessions : List (String × Session)
  next_agent_id : Nat
deriving DecidableEq, Repr

/-- Modelled from the spec: `MegaAdvancedBrowserAgent.__init__` lives in
`agent.py`, which is not among the source files here.  Per the spec the
automation handle is created lazily on first command, not at session
creation, to avoid the cost of spinning up a browser, and `web_app.py`
itself corroborates this: it stores `browser_initialized: False` in the
fresh record and only calls `agent._initialize_driver()` on the first
command (line 590).  So construction returns a handle object with no live
driver; the browser is launched only by `_initialize_driver`. -/
def mega_advanced_browser_agent_init (fresh_id : Nat) : Agent :=
  { agent_id := fresh_id, driver := none }

/-- `SessionManager.create_session` (lines 42-93).  `ctor_fail = some e`
plays the role of `MegaAdvancedBrowserAgent(...)` raising an exception with
message `e`; `none` is the successful construction.  If the identifier is
already present the existing record is returned unchanged (lines 45-46);
otherwise a fresh record is registered, in the error shape of lines 79-92
when construction failed. -/
def create_session (m : SessionManager) (session_id : String)
    (user_data : List (String × String)) (now : Nat) (ctor_fail : Option String) :
    Session × SessionManager :=
  match lookupK m.sessions session_id with
  | some s => (s, m)
  | none =>
    match ctor_fail with
    | some e =>
      let s : Session :=
        { id := session_id, agent := none, created_at := now, last_activity := now,
          status := "error", user_data := user_data, message_history := [],
          browser_url := "Error", browser_title := "Failed to initialize",
          browser_initialized := false, error := some e }
      (s, { m with sessions := (session_id, s) :: m.sessions })
    | none =>
      let a := mega_advanced_browser_agent_init m.next_agent_id
      let s : Session :=
        { id := session_id, agent := some a, created_at := now, last_activity := now,
          status := "initialized", user_data := user_data, message_history := [],
          browser_url := "about:blank", browser_title := "New Tab",
          browser_initialized := false }
      (s, { sessions := (session_id, s) :: m.sessions,
            next_agent_id := m.next_agent_id + 1 })

/-- `SessionManager.get_session` (lines 95-97). -/
def get_session (m : SessionManager) (session_id : String) : Option Session :=
  lookupK m.sessions session_id

/-- `SessionManager.update_activity` (lines 99-103): refresh the
`last_activity` stamp, a no-op for an absent identifier. -/
def update_activity (m : SessionManager) (session_id : String) (now : Nat) : SessionManager :=
  { m with sessions := updateK m.sessions session_id (fun s => { s with last_activity := now }) }

/-- `SessionManager.cleanup_session` (lines 105-117).  `cleanup_raises`
plays the role of `session["agent"].cleanup()` raising.  The source wraps
the cleanup call in try/except (the except only logs) with the deletion in
a finally, so the structure below first runs the body to an `Except`,
converts any error to success, and then deletes; a propagated exception
would surface as `Except.error`. -/
def cleanup_session (m : SessionManager) (session_id : String) (cleanup_raises : Bool) :
    Except String SessionManager :=
  match lookupK m.sessions session_id with
  | none => Except.ok m
  | some session =>
    let body : Except String Unit :=
      match session.agent with
      | some _ => if cleanup_raises then Except.error "cleanup raised" else Except.ok ()
      | none => Except.ok ()
    let handled : Except String Unit :=
      match body with
      | Except.error _ => Except.ok ()
      | Except.ok () => Except.ok ()
    match handled with
    | Except.ok () => Except.ok { m with sessions := eraseK m.sessions session_id }
    | Except.error e => Except.error e

/-- Store the (mutated) record back under its key, the model of in-place
mutation of the dictionary shared between threads. -/
def set_session (m : SessionManager) (session_id : String) (s : Session) : SessionManager :=
  { m with sessions := updateK m.sessions session_id (fun _ => s) }

/-- Does the pattern occur at the head of the character list. -/
def startsHere : List Char → List Char → Bool
  | [], _ => true
  | _ :: _, [] => false
  | p :: ps, s :: ss => (p = s) && startsHere ps ss

/-- Does the pattern occur anywhere in the character list (contiguously). -/
def hasSub (pat : List Char) : List Char → Bool
  | [] => startsHere pat []
  | s :: ss => startsHere pat (s :: ss) || hasSub pat ss

/-- Model of the Python substring test `pat in s`. -/
def strContains (s pat : String) : Bool :=
  hasSub pat.data s.data

/-- Model of Python `str.lower()` (the strings of interest are ASCII). -/
def toLowerStr (s : String) : String :=
  ⟨s.data.map Char.toLower⟩

/-- Outcome of a `save_advanced_screenshot` call: a usable path on disk, a
falsy or nonexistent path, or a raised exception. -/
inductive ShotRes where
  | ok
  | falsy
  | raises
deriving DecidableEq, Repr

/-- Per-command oracle: the outcome of each call into the automation handle
and the external world during one `_process_agent_message` run, one field per
call site.  `init_ok` covers the three-call initialization sequence of lines
590-594 as a unit; `find_box_ok` covers the find/send/send chain of lines
641-644 as a unit (on failure the first call of the unit is the one
attempted). -/
structure CmdOracle where
  init_ok : Bool
  init_err : String
  page_title : String → String
  nav_ok : Bool
  nav_err : String
  read_url_cmd_ok : Bool
  read_err : String
  find_box_ok : Bool
  after_search_url : String
  after_search_title : String
  shot : ShotRes
  shot_err : String
  refresh_url_ok : Bool
  refresh_title_ok : Bool

/-- Result of the command-parsing block, lines 613-687: either a normal
outcome (response text, action log, new driver state, events emitted inside
the block, handle calls made) or an exception escaping to the handler of
lines 704-707. -/
inductive ParseRes where
  | ok (response : String) (actions : List ActionEntry) (d2 : Driver)
      (events : List Event) (calls : List HandleCall)
  | raised (err : String) (d2 : Driver) (calls : List HandleCall)
deriving Repr

/-- The static part of the fallback response of lines 684-687; the source
interpolates the user message into the text with an f-string. -/
def fallback_text (message : String) : String :=
  "I received your message: \"" ++ message ++
    "\". I can help you with browser automation tasks like:\n\n• \"Navigate to Google\" or \"Go to GitHub\"\n• \"Search for AI news\" (after navigating to Google)\n• \"Take a screenshot\"\n\nPlease give me a specific command to execute."

/-- The intent dispatch of lines 613-687, branch for branch: navigation,
search, screenshot, fallback, first match wins on the lowercased message. -/
def parse_branches (d : Driver) (message : String) (o : CmdOracle) : ParseRes :=
  let ml := toLowerStr message
  if strContains ml "navigate" || strContains ml "go to" then
    if strContains ml "google" then
      if o.nav_ok then
        ParseRes.ok "I navigated to Google.com as requested."
          [⟨"navigate_to_google", "completed"⟩]
          ⟨"https://www.google.com", o.page_title "https://www.google.com"⟩
          [] [HandleCall.navigate "https://www.google.com"]
      else ParseRes.raised o.nav_err d [HandleCall.navigate "https://www.google.com"]
    else if strContains ml "github" then
      if o.nav_ok then
        ParseRes.ok "I navigated to GitHub.com as requested."
          [⟨"navigate_to_github", "completed"⟩]
          ⟨"https://github.com", o.page_title "https://github.com"⟩
          [] [HandleCall.navigate "https://github.com"]
      else ParseRes.raised o.nav_err d [HandleCall.navigate "https://github.com"]
    else if strContains ml "example" then
      if o.nav_ok then
        ParseRes.ok "I navigated to Example.com as requested."
          [⟨"navigate_to_example", "completed"⟩]
          ⟨"https://example.com", o.page_title "https://example.com"⟩
          [] [HandleCall.navigate "https://example.com"]
      else ParseRes.raised o.nav_err d [HandleCall.navigate "https://example.com"]
    else
      ParseRes.ok "I understand you want to navigate somewhere. Please specify a clear URL or website name (e.g., \x27go to Google\x27, \x27navigate to GitHub\x27)."
        [⟨"parse_navigation_request", "completed"⟩] d [] []
  else if strContains ml "search" then
    -- line 636 reads driver.current_url for the truthiness test, line 637
    -- reads it again into the local variable
    if o.read_url_cmd_ok then
      if d.current_url ≠ "" then
        if strContains d.current_url "google.com" then
          if o.find_box_ok then
            ParseRes.ok ("I searched for \x27" ++
                (((message.replace "search for" "").replace "search" "").trim) ++
                "\x27 on Google.")
              [⟨"find_search_box", "completed"⟩, ⟨"enter_search_terms", "completed"⟩,
                ⟨"submit_search", "completed"⟩]
              ⟨o.after_search_url, o.after_search_title⟩ []
              [HandleCall.read_current_url, HandleCall.read_current_url,
                HandleCall.find_element "q",
                HandleCall.send_keys (((message.replace "search for" "").replace "search" "").trim),
                HandleCall.send_return]
          else
            ParseRes.ok "I tried to search but couldn\x27t find the search box. Please try navigating to Google first."
              [⟨"search_attempt", "failed"⟩] d []
              [HandleCall.read_current_url, HandleCall.read_current_url,
                HandleCall.find_element "q"]
        else
          ParseRes.ok "To search, please first navigate to a search engine like Google."
            [⟨"search_validation", "completed"⟩] d []
            [HandleCall.read_current_url, HandleCall.read_current_url]
      else
        ParseRes.ok "Please navigate to a search engine first, then I can help you search."
          [⟨"search_prerequisite_check", "completed"⟩] d [] [HandleCall.read_current_url]
    else ParseRes.raised o.read_err d [HandleCall.read_current_url]
  else if strContains ml "screenshot" || strContains ml "capture" then
    match o.shot with
    | ShotRes.ok =>
      ParseRes.ok "I took a screenshot of the current page."
        [⟨"capture_screenshot", "completed"⟩] d [Event.browser_screenshot]
        [HandleCall.save_screenshot]
    | ShotRes.falsy =>
      ParseRes.ok "I attempted to take a screenshot but encountered an issue."
        [⟨"capture_screenshot", "failed"⟩] d [] [HandleCall.save_screenshot]
    | ShotRes.raises =>
      ParseRes.ok ("Screenshot failed: " ++ o.shot_err)
        [⟨"capture_screenshot", "failed"⟩] d [] [HandleCall.save_screenshot]
  else
    ParseRes.ok (fallback_text message) [⟨"analyze_request", "completed"⟩] d [] []

/-- What the best-effort browser-info refresh of lines 689-702 produces:
events emitted, handle calls made, and the cache updates applied to the
session record (`none` = the read before the write raised, so the key kept
its old value; failures are swallowed by the bare except of line 701). -/
structure RefreshOut where
  events : List Event
  calls : List HandleCall
  new_url : Option String
  new_title : Option String
deriving Repr

def refresh_browser_info (d : Driver) (o : CmdOracle) : RefreshOut :=
  if o.refresh_url_ok then
    if o.refresh_title_ok then
      { events := [Event.browser_info d.current_url d.title],
        calls := [HandleCall.read_current_url, HandleCall.read_title],
        new_url := some d.current_url, new_title := some d.title }
    else
      { events := [],
        calls := [HandleCall.read_current_url, HandleCall.read_title],
        new_url := some d.current_url, new_title := none }
  else
    { events := [], calls := [HandleCall.read_current_url],
      new_url := none, new_title := none }

/-- Everything the command block of lines 608-707 produces. -/
structure CmdOutcome where
  response_content : String
  actions_taken : List ActionEntry
  d2 : Driver
  events : List Event
  calls : List HandleCall
  new_url : Option String
  new_title : Option String
deriving Repr

/-- Lines 608-707: run the intent dispatch; a raised exception lands in the
handler of lines 704-707 (error response, one failed `error_handling`
action, refresh skipped), a normal outcome is followed by the best-effort
browser-info refresh. -/
def run_command (d : Driver) (message : String) (o : CmdOracle) : CmdOutcome :=
  match parse_branches d message o with
  | ParseRes.raised e d2 cs =>
    { response_content := "I encountered an error while processing your request: " ++ e,
      actions_taken := [⟨"error_handling", "failed"⟩],
      d2 := d2, events := [], calls := cs, new_url := none, new_title := none }
  | ParseRes.ok resp acts d2 evs cs =>
    let r := refresh_browser_info d2 o
    { response_content := resp, actions_taken := acts, d2 := d2,
      events := evs ++ r.events, calls := cs ++ r.calls,
      new_url := r.new_url, new_title := r.new_title }

/-- What one `_process_agent_message` run leaves behind: the store, the
events emitted to the session room, and the handle calls made. -/
structure RunResult where
  store : SessionManager
  events : List Event
  calls : List HandleCall
deriving Repr

/-- Lines 709-729: build the agent response, append it to the history, set
the status to ready, and emit typing-stop, the response, and the ready
status update. -/
def finish_command (m : SessionManager) (session_id : String) (session : Session)
    (a : Agent) (d : Driver) (ev : List Event) (cs : List HandleCall)
    (message : String) (o : CmdOracle) : RunResult :=
  let out := run_command d message o
  let a2 : Agent := { a with driver := some out.d2 }
  let agent_msg : Message :=
    { mtype := "agent", content := out.response_content, actions_taken := out.actions_taken }
  let session2 : Session :=
    { session with
      agent := some a2,
      browser_url := Option.getD out.new_url session.browser_url,
      browser_title := Option.getD out.new_title session.browser_title,
      message_history := session.message_history ++ [agent_msg],
      status := "ready" }
  { store := set_session m session_id session2,
    events := ev ++ out.events ++
      [Event.typing_stop,
        Event.agent_response out.response_content out.actions_taken,
        Event.status_update "ready" "Agent is ready for next command"],
    calls := cs ++ out.calls }

/-- `WebAgentApp._process_agent_message` (lines 569-742), the background
unit of work for one command.  An absent session returns silently (lines
572-574).  The status is set to `processing` and a status update emitted;
if the handle has no live driver it is initialized first, a failure (or a
`None` agent, whose attribute access raises) emitting an error and
returning (lines 587-606); otherwise the command block runs and the
response is delivered. -/
def process_agent_message (m : SessionManager) (session_id : String) (message : String)
    (o : CmdOracle) : RunResult :=
  match get_session m session_id with
  | none => { store := m, events := [], calls := [] }
  | some session =>
    let session1 : Session := { session with status := "processing" }
    let m1 := set_session m session_id session1
    let ev0 := [Event.status_update "processing" "Agent is analyzing your request..."]
    match session1.agent with
    | none =>
      -- `agent` is None: `agent._initialize_driver()` raises AttributeError,
      -- caught by the except of lines 601-606
      { store := m1,
        events := ev0 ++ [Event.error ("Failed to initialize browser session: " ++ o.init_err)],
        calls := [] }
    | some a =>
      match a.driver with
      | some d => finish_command m1 session_id session1 a d ev0 [] message o
      | none =>
        if o.init_ok then
          let d0 : Driver := ⟨"about:blank", o.page_title "about:blank"⟩
          let a1 : Agent := { a with driver := some d0 }
          let session2 : Session := { session1 with agent := some a1 }
          let m2 := set_session m1 session_id session2
          finish_command m2 session_id session2 a1 d0
            (ev0 ++ [Event.status_update "processing"
              "Browser session initialized. Processing your request..."])
            [HandleCall.init_driver, HandleCall.init_visual, HandleCall.navigate "about:blank"]
            message o
        else
          { store := m1,
            events := ev0 ++
              [Event.error ("Failed to initialize browser session: " ++ o.init_err)],
            calls := [HandleCall.init_driver] }

/-- The `send_message` handler (lines 233-275) up to the point where the
background thread is spawned: guard against an empty message and an absent
session, refresh activity, append the user message, emit the received
confirmation and the typing indicator.  The Bool records whether the
processing thread was started. -/
def handle_message (m : SessionManager) (session_id : String) (raw_message : String)
    (now : Nat) : SessionManager × List Event × Bool :=
  let message := raw_message.trim
  if message = "" then (m, [Event.error "Empty message received"], false)
  else
    match get_session m session_id with
    | none => (m, [Event.error "Session not found. Please refresh the page."], false)
    | some _ =>
      let m1 := update_activity m session_id now
      let user_msg : Message := { mtype := "user", content := message, actions_taken := [] }
      let appendMsg : Session → Session :=
        fun s => { s with message_history := s.message_history ++ [user_msg] }
      let m2 : SessionManager := { m1 with sessions := updateK m1.sessions session_id appendMsg }
      (m2, [Event.message_received message, Event.typing_start], true)

/-- The `params` dictionary of a `browser_control` request: each key read
with `params.get(...)`, absent keys being `none`. -/
structure ControlParams where
  url : Option String := none
  x : Option Int := none
  y : Option Int := none
  direction : Option String := none
  amount : Option Int := none
deriving DecidableEq, Repr

/-- Oracle for one `browser_control` request: outcomes of the driver calls.
`click_err` is the message of the exception the click branch raises —
in the source `ActionChains` is referenced without being imported, so the
branch always raises a NameError that the handler-wide except converts to an
error event. -/
structure ControlOracle where
  nav_ok : Bool
  nav_err : String
  nav_title : String
  click_err : String
  script_ok : Bool
  script_err : String
deriving Repr

/-- The `browser_control` handler (lines 407-461).  Guard chain first; then
an if/elif chain on the action with per-branch parameter guards; an action
value outside the chain, a `navigate` whose `url` param is not truthy (the
source tests `if url:` at line 429, so an absent key and an empty string
both fail it), or a `click` without both coordinates (an `is not None`
presence test, lines 437-439) falls through the whole chain and the handler
returns without emitting anything. -/
def handle_browser_control (m : SessionManager) (session_id : String)
    (action : Option String) (params : ControlParams) (o : ControlOracle) :
    SessionManager × List Event :=
  match get_session m session_id with
  | none => (m, [Event.error "No active session found"])
  | some session =>
    match session.agent with
    | none => (m, [Event.error "No active session found"])
    | some a =>
      match a.driver with
      | none => (m, [Event.error "Browser not initialized"])
      | some _ =>
        if action = some "navigate" then
          -- url = params.get("url"); if url:  — Python truthiness, so a
          -- present-but-empty string falls through like an absent key
          match params.url with
          | some url =>
            if url = "" then (m, [])
            else if o.nav_ok then
              let setNav : Session → Session := fun s =>
                { s with agent := some { a with driver := some ⟨url, o.nav_title⟩ } }
              ({ m with sessions := updateK m.sessions session_id setNav },
                [Event.browser_control_result "navigate" true ("Navigated to " ++ url)])
            else (m, [Event.error ("Browser control error: " ++ o.nav_err)])
          | none => (m, [])
        else if action = some "click" then
          match params.x, params.y with
          | some _, some _ =>
            -- ActionChains is not imported in web_app.py: NameError, caught
            -- by the except of lines 459-461
            (m, [Event.error ("Browser control error: " ++ o.click_err)])
          | _, _ => (m, [])
        else if action = some "scroll" then
          if o.script_ok then
            (m, [Event.browser_control_result "scroll" true
              ("Scrolled " ++ Option.getD params.direction "down")])
          else (m, [Event.error ("Browser control error: " ++ o.script_err)])
        else (m, [])

/-- Per-iteration oracle for the streaming loop: the value of the
`streaming` flag observed at the top of the iteration (a concurrent
`stop_browser_stream` may have cleared it), and the outcome of each of the
three samples — screenshot, cursor overlay, url/title. -/
structure FrameOracle where
  streaming_now : Bool
  shot : ShotRes
  cursor_ok : Bool
  cursor : CursorInfo
  info_ok : Bool
deriving Repr

/-- What one loop iteration of `_browser_stream_worker` does after the
`streaming` check: emit a frame and continue, continue without a frame, or
leave the loop. -/
inductive StreamStep where
  | emitFrame (e : Event)
  | skipFrame
  | exitLoop
deriving DecidableEq, Repr

/-- One iteration body of the loop of lines 511-561.  No live driver: the
sampling block is skipped and the iteration just sleeps.  The screenshot
call is not individually guarded: if it raises, the per-iteration except of
lines 559-561 breaks out of the loop; a falsy path skips the frame.  The
cursor sample (lines 535-538) and the url/title sample (lines 540-547) are
each wrapped in their own try/except with a default value, so their failure
degrades the frame instead of aborting it. -/
def stream_iteration (agent : Option Agent) (o : FrameOracle) : StreamStep :=
  match agent with
  | none => StreamStep.skipFrame
  | some a =>
    match a.driver with
    | none => StreamStep.skipFrame
    | some d =>
      match o.shot with
      | ShotRes.raises => StreamStep.exitLoop
      | ShotRes.falsy => StreamStep.skipFrame
      | ShotRes.ok =>
        let cursor := if o.cursor_ok then o.cursor else ⟨0, 0, false⟩
        let url := if o.info_ok then d.current_url else "Error"
        let title := if o.info_ok then d.title else "Error"
        StreamStep.emitFrame (Event.browser_stream_frame cursor url title)

/-- The while loop of lines 511-561, driven by one oracle per iteration; an
empty oracle list is exhausted fuel.  The Bool is true when the loop
actually exited (the `streaming` flag was observed false, or an iteration
broke out) and false when fuel ran out with the loop still running. -/
def stream_loop_go (agent : Option Agent) : List FrameOracle → List Event × Bool
  | [] => ([], false)
  | o :: rest =>
    if o.streaming_now then
      match stream_iteration agent o with
      | StreamStep.emitFrame e =>
        let r := stream_loop_go agent rest
        (e :: r.1, r.2)
      | StreamStep.skipFrame => stream_loop_go agent rest
      | StreamStep.exitLoop => ([], true)
    else ([], true)

/-- `WebAgentApp._browser_stream_worker` (lines 501-567): absent session
returns silently; otherwise set `streaming` true, run the loop, and — in the
finally of lines 565-567, which runs when the worker exits — clear the
flag.  When fuel ran out the worker is still inside the loop and the
finally has not run yet, so the flag stays set. -/
def browser_stream_worker (m : SessionManager) (session_id : String)
    (os : List FrameOracle) : SessionManager × List Event :=
  match get_session m session_id with
  | none => (m, [])
  | some session =>
    let setStreaming : Session → Session := fun s => { s with streaming := true }
    let m1 : SessionManager := { m with sessions := updateK m.sessions session_id setStreaming }
    let r := stream_loop_go session.agent os
    if r.2 then
      let clear : Session → Session := fun s => { s with streaming := false }
      ({ m1 with sessions := updateK m1.sessions session_id clear }, r.1)
    else (m1, r.1)

/-- The `stop_browser_stream` handler (lines 391-405): clear the
`streaming` flag when the session exists, and acknowledge with
`stream_stopped` in every case. -/
def handle_stop_browser_stream (m : SessionManager) (session_id : String) :
    SessionManager × List Event :=
  match get_session m session_id with
  | some _ =>
    let clear : Session → Session := fun s => { s with streaming := false }
    ({ m with sessions := updateK m.sessions session_id clear },
      [Event.stream_stopped "Browser streaming stopped"])
  | none => (m, [Event.stream_stopped "Browser streaming stopped"])

/-- A live driver parked on the initial blank page. -/
def driver_blank : Driver := ⟨"about:blank", ""⟩

/-- A session whose handle already has a live driver. -/
def session_live : Session :=
  { id := "s", agent := some ⟨0, some driver_blank⟩, created_at := 0, last_activity := 0,
    status := "ready", user_data := [], message_history := [],
    browser_url := "about:blank", browser_title := "New Tab", browser_initialized := true }

/-- A freshly created session whose handle has no live driver yet. -/
def session_nodriver : Session :=
  { id := "s", agent := some ⟨0, none⟩, created_at := 0, last_activity := 0,
    status := "initialized", user_data := [], message_history := [],
    browser_url := "about:blank", browser_title := "New Tab", browser_initialized := false }

def store_live : SessionManager := ⟨[("s", session_live)], 1⟩

def store_nodriver : SessionManager := ⟨[("s", session_nodriver)], 1⟩

/-- An oracle on which every external call succeeds. -/
def oracle_ok : CmdOracle :=
  { init_ok := true, init_err := "", page_title := fun _ => "", nav_ok := true, nav_err := "",
    read_url_cmd_ok := true, read_err := "", find_box_ok := true,
    after_search_url := "", after_search_title := "", shot := ShotRes.ok, shot_err := "",
    refresh_url_ok := true, refresh_title_ok := true }

/-- An oracle on which driver initialization raises with message boom. -/
def oracle_init_fail : CmdOracle := { oracle_ok with init_ok := false, init_err := "boom" }

/-- A handle with a live driver parked on an example page. -/
def agent_live : Option Agent :=
  some ⟨0, some ⟨"https://example.com", "Example Domain"⟩⟩

/-- A stream-iteration oracle on which every sample succeeds. -/
def frame_ok : FrameOracle :=
  { streaming_now := true, shot := ShotRes.ok, cursor_ok := true,
    cursor := ⟨10, 20, true⟩, info_ok := true }

/-- A stream-iteration oracle on which the screenshot call raises. -/
def frame_shot_raises : FrameOracle := { frame_ok with shot := ShotRes.raises }

/-- A store with one streaming-capable session. -/
def store_stream : SessionManager := ⟨[("s", { session_live with agent := agent_live })], 1⟩

/-- Empty browser-control params (every key absent). -/
def params_empty : ControlParams := {}

/-- A browser-control oracle on which every driver call succeeds. -/
def control_oracle_ok : ControlOracle :=
  { nav_ok := true, nav_err := "", nav_title := "", click_err := "boom",
    script_ok := true, script_err := "" }

theorem lookupK_updateK (l : List (String × Session)) (k : String) (f : Session → Session) :
    lookupK (updateK l k f) k = (lookupK l k).map f := by
  induction l with
  | nil => rfl
  | cons p t ih =>
    by_cases h : p.1 = k
    · simp [updateK, lookupK, h]
    · simp [updateK, lookupK, h, ih]

theorem lookupK_eraseK (l : List (String × Session)) (k : String) :
    lookupK (eraseK l k) k = none := by
  induction l with
  | nil => rfl
  | cons p t ih =>
    by_cases h : p.1 = k
    · simp [eraseK, h, ih]
    · simp [eraseK, lookupK, h, ih]

theorem updateK_updateK (l : List (String × Session)) (k : String) (f g : Session → Session) :
    updateK (updateK l k f) k g = updateK l k (fun s => g (f s)) := by
  induction l with
  | nil => rfl
  | cons p t ih =>
    by_cases h : p.1 = k
    · simp [updateK, h, ih]
    · simp [updateK, h, ih]

/-- C2: for every session identifier, calling `create_session` twice in
sequence returns from the second call exactly the record the first call
produced — same underlying session record, same automation-handle identity —
and leaves the whole store (including the handle-allocation counter)
untouched, so a second automation handle is never allocated for an
identifier already present in the store. -/
theorem C2_create_session_idempotent (m : SessionManager) (sid : String)
    (ud1 ud2 : List (String × String)) (n1 n2 : Nat) (f1 f2 : Option String) :
    create_session (create_session m sid ud1 n1 f1).2 sid ud2 n2 f2
      = ((create_session m sid ud1 n1 f1).1, (create_session m sid ud1 n1 f1).2) := by
  cases h : lookupK m.sessions sid with
  | some s => simp [create_session, h]
  | none =>
    cases f1 with
    | some e => simp [create_session, h, lookupK]
    | none => simp [create_session, h, lookupK]

/-- C8: for every session identifier, remove followed by get returns
absent; remove is idempotent (a second remove, or a remove of an identifier
never present, is a no-op without error); and a failure raised by the
handle cleanup during remove is swallowed rather than propagated — the call
always returns normally — with the record still deleted. -/
theorem C8_cleanup_session_spec (m : SessionManager) (sid : String) (r1 r2 : Bool) :
    ∃ m1, cleanup_session m sid r1 = Except.ok m1
      ∧ get_session m1 sid = none
      ∧ cleanup_session m1 sid r2 = Except.ok m1
      ∧ (get_session m sid = none → m1 = m) := by
  cases h : lookupK m.sessions sid with
  | none =>
    refine ⟨m, ?_, ?_, ?_, fun _ => rfl⟩ <;> simp [cleanup_session, get_session, h]
  | some s =>
    refine ⟨{ m with sessions := eraseK m.sessions sid }, ?_, ?_, ?_, ?_⟩
    · cases hag : s.agent <;> cases r1 <;> simp [cleanup_session, h, hag]
    · simp [get_session, lookupK_eraseK]
    · simp [cleanup_session, lookupK_eraseK]
    · intro habs
      rw [get_session, h] at habs
      cases habs

/-- C10: the stop-stream request always replies with exactly the
stream-stopped acknowledgement; when the session is absent it emits no
error and changes no state; and stopping twice leaves the same state as
stopping once, so stopping is an idempotent, always-acknowledged
operation. -/
theorem C10_stop_stream_ack (m : SessionManager) (sid : String) :
    (handle_stop_browser_stream m sid).2
        = [Event.stream_stopped "Browser streaming stopped"]
    ∧ (get_session m sid = none → (handle_stop_browser_stream m sid).1 = m)
    ∧ (handle_stop_browser_stream (handle_stop_browser_stream m sid).1 sid).1
        = (handle_stop_browser_stream m sid).1 := by
  cases h : get_session m sid with
  | none =>
    refine ⟨?_, fun _ => ?_, ?_⟩ <;> simp [handle_stop_browser_stream, h]
  | some s =>
    have hl : lookupK m.sessions sid = some s := h
    refine ⟨?_, ?_, ?_⟩
    · simp [handle_stop_browser_stream, h]
    · intro habs
      simp at habs
    · have hlk : lookupK (updateK m.sessions sid (fun t => { t with streaming := false })) sid
          = some { s with streaming := false } := by
        rw [lookupK_updateK, hl]
        rfl
      simp only [handle_stop_browser_stream, get_session, hl, hlk]
      rw [updateK_updateK]

theorem typing_stop_mem_finish (m : SessionManager) (sid : String) (session : Session)
    (a : Agent) (d : Driver) (ev : List Event) (cs : List HandleCall) (message : String)
    (o : CmdOracle) :
    Event.typing_stop ∈ (finish_command m sid session a d ev cs message o).events := by
  simp [finish_command]

/-- C4 (amended): a typing-stop event is emitted by command processing
exactly when processing gets past handle initialization — the session is
present with a non-`None` agent whose driver is already live or whose
initialization succeeds.  When initialization fails (or the agent is
`None`), the handler returns after emitting only the error, leaving the
typing indicator started by the message handler on; when the session is
absent at thread start nothing at all is emitted. -/
theorem C4_typing_stop_iff (m : SessionManager) (sid : String) (message : String)
    (o : CmdOracle) :
    Event.typing_stop ∈ (process_agent_message m sid message o).events
      ↔ ∃ s a, get_session m sid = some s ∧ s.agent = some a
          ∧ (a.driver ≠ none ∨ o.init_ok = true) := by
  cases h : get_session m sid with
  | none => simp [process_agent_message, h]
  | some s =>
    cases hag : s.agent with
    | none => simp [process_agent_message, h, hag]
    | some a =>
      cases hd : a.driver with
      | none =>
        cases hinit : o.init_ok
        · simp [process_agent_message, h, hag, hd, hinit]
        · simp [process_agent_message, h, hag, hd, hinit, typing_stop_mem_finish]
      | some d =>
        simp [process_agent_message, h, hag, hd, typing_stop_mem_finish]

/-- C4 (counterexample): with a session whose handle has no live driver and
an initialization that fails, command processing exits without ever
emitting a typing-stop event, contradicting the claim that typing-stop is
emitted on every exit path of command processing. -/
theorem C4_counterexample :
    Event.typing_stop ∉
      (process_agent_message store_nodriver "s" "go to github" oracle_init_fail).events := by
  decide

/-- C1 (amended): when processing a command requires initializing the
automation handle and that initialization fails, the command is aborted
with an error reported to the caller, no agent response is delivered, and
the session status remains `processing` afterward (it is not reset to
`ready`). -/
theorem C1_init_failure_aborts (m : SessionManager) (sid : String) (message : String)
    (s : Session) (a : Agent) (o : CmdOracle) (hs : get_session m sid = some s)
    (ha : s.agent = some a) (hd : a.driver = none) (hinit : o.init_ok = false) :
    Event.error ("Failed to initialize browser session: " ++ o.init_err)
        ∈ (process_agent_message m sid message o).events
    ∧ get_session (process_agent_message m sid message o).store sid
        = some { s with status := "processing" }
    ∧ ∀ c acts, Event.agent_response c acts ∉ (process_agent_message m sid message o).events := by
  have hl : lookupK m.sessions sid = some s := hs
  refine ⟨?_, ?_, ?_⟩
  · simp [process_agent_message, hs, ha, hd, hinit]
  · simp [process_agent_message, hs, ha, hd, hinit, get_session, set_session,
      lookupK_updateK, hl]
  · intro c acts
    simp [process_agent_message, hs, ha, hd, hinit]

theorem C1_init_failure_aborts_witness :
    Event.error "Failed to initialize browser session: boom"
        ∈ (process_agent_message store_nodriver "s" "go to example" oracle_init_fail).events
    ∧ get_session (process_agent_message store_nodriver "s" "go to example" oracle_init_fail).store "s"
        = some { session_nodriver with status := "processing" } := by
  have h := C1_init_failure_aborts store_nodriver "s" "go to example" session_nodriver
    ⟨0, none⟩ oracle_init_fail rfl rfl rfl rfl
  exact ⟨h.1, h.2.1⟩

/-- C1 (counterexample): on a concrete session with no live driver and a
failing initialization, the session status after the command is
`processing`, not `ready`, even though the error was reported — the claim
that the session status is `ready` afterward fails on the code. -/
theorem C1_counterexample :
    (get_session (process_agent_message store_nodriver "s" "go to github" oracle_init_fail).store
        "s").map Session.status = some "processing"
    ∧ (get_session (process_agent_message store_nodriver "s" "go to github" oracle_init_fail).store
        "s").map Session.status ≠ some "ready"
    ∧ Event.error "Failed to initialize browser session: boom"
        ∈ (process_agent_message store_nodriver "s" "go to github" oracle_init_fail).events := by
  decide

theorem driver_initialized_on_first_command (m : SessionManager) (sid : String)
    (message : String) (s : Session) (a : Agent) (o : CmdOracle)
    (hs : lookupK m.sessions sid = some s) (ha : s.agent = some a) (hd : a.driver = none)
    (hinit : o.init_ok = true) :
    (process_agent_message m sid message o).calls.head? = some HandleCall.init_driver
    ∧ ∃ s2 a2 d2,
        get_session (process_agent_message m sid message o).store sid = some s2
        ∧ s2.agent = some a2 ∧ a2.driver = some d2 := by
  have hg : get_session m sid = some s := hs
  constructor
  · simp [process_agent_message, hg, ha, hd, hinit, finish_command]
  · simp [process_agent_message, hg, ha, hd, hinit, finish_command, get_session,
      set_session, lookupK_updateK, hs]

/-- C5: the automation handle construction at session creation does not
launch a browser — a fresh record carries a handle with no live driver
(`agent.driver = none`, `browser_initialized = false`), so a session that
never issues a command never incurs driver construction — and on the first
command issued to the session the very first handle call is
`_initialize_driver`, after which the session holds a live driver. -/
theorem C5_lazy_handle (m : SessionManager) (sid : String) (ud : List (String × String))
    (now : Nat) (hfresh : lookupK m.sessions sid = none) :
    (∃ a, ((create_session m sid ud now none).1).agent = some a ∧ a.driver = none)
    ∧ ((create_session m sid ud now none).1).browser_initialized = false
    ∧ ∀ message o, o.init_ok = true →
        (process_agent_message (create_session m sid ud now none).2 sid message o).calls.head?
            = some HandleCall.init_driver
        ∧ ∃ s2 a2 d2,
            get_session (process_agent_message (create_session m sid ud now none).2
              sid message o).store sid = some s2
            ∧ s2.agent = some a2 ∧ a2.driver = some d2 := by
  refine ⟨?_, ?_, ?_⟩
  · simp [create_session, hfresh, mega_advanced_browser_agent_init]
  · simp [create_session, hfresh]
  · intro message o hinit
    refine driver_initialized_on_first_command _ sid message
      { id := sid, agent := some ⟨m.next_agent_id, none⟩, created_at := now,
        last_activity := now, status := "initialized", user_data := ud,
        message_history := [], browser_url := "about:blank", browser_title := "New Tab",
        browser_initialized := false }
      ⟨m.next_agent_id, none⟩ o ?_ rfl rfl hinit
    simp [create_session, hfresh, lookupK, mega_advanced_browser_agent_init]

theorem C5_lazy_handle_witness :
    (∃ a, ((create_session ⟨[], 0⟩ "s" [] 0 none).1).agent = some a ∧ a.driver = none)
    ∧ (process_agent_message (create_session ⟨[], 0⟩ "s" [] 0 none).2 "s" "hello"
        oracle_ok).calls.head? = some HandleCall.init_driver := by
  have h := C5_lazy_handle ⟨[], 0⟩ "s" [] 0 rfl
  exact ⟨h.1, (h.2.2 "hello" oracle_ok rfl).1⟩

/-- C3 (amended): in the stream loop only the cursor sample and the
URL/title sample are independently guarded — when the screenshot call
succeeds, a frame is emitted even if the cursor or URL/title samples fail
(their values degrade to the defaults `(0,0,not visible)` and
`Error`/`Error`), and the loop continues with the remaining iterations. -/
theorem C3_degraded_frame (a : Agent) (d : Driver) (o : FrameOracle)
    (rest : List FrameOracle) (hd : a.driver = some d) (hstream : o.streaming_now = true)
    (hshot : o.shot = ShotRes.ok) :
    stream_loop_go (some a) (o :: rest)
      = ((Event.browser_stream_frame (if o.cursor_ok then o.cursor else ⟨0, 0, false⟩)
            (if o.info_ok then d.current_url else "Error")
            (if o.info_ok then d.title else "Error"))
          :: (stream_loop_go (some a) rest).1,
        (stream_loop_go (some a) rest).2) := by
  simp [stream_loop_go, stream_iteration, hd, hstream, hshot]

theorem C3_degraded_frame_witness :
    stream_loop_go agent_live [{ frame_ok with cursor_ok := false, info_ok := false }]
      = ([Event.browser_stream_frame ⟨0, 0, false⟩ "Error" "Error"], false) := by
  have h := C3_degraded_frame ⟨0, some ⟨"https://example.com", "Example Domain"⟩⟩
    ⟨"https://example.com", "Example Domain"⟩
    { frame_ok with cursor_ok := false, info_ok := false } [] rfl rfl rfl
  simpa [agent_live, stream_loop_go] using h

/-- C3 (counterexample): the screenshot sample is not independently
guarded — a raising screenshot call in the first iteration emits no frame
(degraded or otherwise) and breaks out of the loop, even though streaming
was never disabled and the following iteration would have had every sample
succeed; the claim that the failure of any one sample aborts neither the
frame nor the loop fails on the code. -/
theorem C3_counterexample :
    (stream_loop_go agent_live [frame_shot_raises, frame_ok]).1 = []
    ∧ (stream_loop_go agent_live [frame_shot_raises, frame_ok]).2 = true
    ∧ (browser_stream_worker store_stream "s" [frame_shot_raises, frame_ok]).2 = [] := by
  decide

theorem refresh_calls_are_reads (d : Driver) (o : CmdOracle) :
    ∀ c ∈ (refresh_browser_info d o).calls,
      c = HandleCall.read_current_url ∨ c = HandleCall.read_title := by
  intro c hc
  by_cases hu : o.refresh_url_ok <;> by_cases ht : o.refresh_title_ok <;>
    simp [refresh_browser_info, hu, ht] at hc <;> tauto

/-- C6 (amended): a search command issued while the driver reports a
non-empty current location that is not a recognized search surface returns
the guidance response text with an action log of exactly one `completed`
entry named `search_validation` and leaves the driver state unchanged; the
dispatcher does however call into the automation handle — every call it
makes is a read-only query of the current URL or title (the location check
of line 636-637 and the best-effort cache refresh of lines 689-702). -/
theorem C6_search_validation (d : Driver) (message : String) (o : CmdOracle)
    (h1 : strContains (toLowerStr message) "navigate" = false)
    (h2 : strContains (toLowerStr message) "go to" = false)
    (h3 : strContains (toLowerStr message) "search" = true)
    (h4 : o.read_url_cmd_ok = true)
    (h5 : d.current_url ≠ "")
    (h6 : strContains d.current_url "google.com" = false) :
    (run_command d message o).response_content
        = "To search, please first navigate to a search engine like Google."
    ∧ (run_command d message o).actions_taken = [⟨"search_validation", "completed"⟩]
    ∧ (run_command d message o).d2 = d
    ∧ ∀ c ∈ (run_command d message o).calls,
        c = HandleCall.read_current_url ∨ c = HandleCall.read_title := by
  refine ⟨?_, ?_, ?_, ?_⟩
  · simp [run_command, parse_branches, h1, h2, h3, h4, h5, h6]
  · simp [run_command, parse_branches, h1, h2, h3, h4, h5, h6]
  · simp [run_command, parse_branches, h1, h2, h3, h4, h5, h6]
  · intro c hc
    simp [run_command, parse_branches, h1, h2, h3, h4, h5, h6] at hc
    rcases hc with h | h
    · simp [h]
    · exact refresh_calls_are_reads d o c h

theorem C6_search_validation_witness :
    (run_command driver_blank "please search the web" oracle_ok).response_content
        = "To search, please first navigate to a search engine like Google."
    ∧ (run_command driver_blank "please search the web" oracle_ok).d2 = driver_blank := by
  have h := C6_search_validation driver_blank "please search the web" oracle_ok
    (by decide) (by decide) (by decide) rfl (by decide) (by decide)
  exact ⟨h.1, h.2.2.1⟩

/-- C6 (counterexample): on the concrete run of `search for cats` with the
driver on `about:blank`, the dispatcher does return the guidance text with
the single `completed` `search_validation` entry, but its handle-call list
is not empty — it reads the current URL to make the decision and reads
URL/title again for the cache refresh — so the claim that no call is made
into the automation handle fails on the code. -/
theorem C6_counterexample :
    (run_command driver_blank "search for cats" oracle_ok).response_content
        = "To search, please first navigate to a search engine like Google."
    ∧ (run_command driver_blank "search for cats" oracle_ok).actions_taken
        = [⟨"search_validation", "completed"⟩]
    ∧ (run_command driver_blank "search for cats" oracle_ok).calls ≠ [] := by
  decide

/-- C9 (amended): for every command text matching none of the recognized
intents, dispatch succeeds (the fallback branch performs no fallible
operation, so the exception handler is never reached) and returns the
fallback guidance text — which embeds the echoed user message followed by
the fixed capability summary, rather than being one static text — with an
action log of exactly one `completed` `analyze_request` action. -/
theorem C9_fallback_total (d : Driver) (message : String) (o : CmdOracle)
    (h1 : strContains (toLowerStr message) "navigate" = false)
    (h2 : strContains (toLowerStr message) "go to" = false)
    (h3 : strContains (toLowerStr message) "search" = false)
    (h4 : strContains (toLowerStr message) "screenshot" = false)
    (h5 : strContains (toLowerStr message) "capture" = false) :
    (run_command d message o).response_content = fallback_text message
    ∧ (run_command d message o).actions_taken = [⟨"analyze_request", "completed"⟩] := by
  constructor <;> simp [run_command, parse_branches, h1, h2, h3, h4, h5]

theorem C9_fallback_total_witness :
    (run_command driver_blank "do something" oracle_ok).response_content
        = fallback_text "do something"
    ∧ (run_command driver_blank "do something" oracle_ok).actions_taken
        = [⟨"analyze_request", "completed"⟩] := by
  have h := C9_fallback_total driver_blank "do something" oracle_ok
    (by decide) (by decide) (by decide) (by decide) (by decide)
  exact h

/-- C9 (counterexample): two command texts matching no recognized intent
both take the fallback branch (one `completed` `analyze_request` action
each) yet get different response texts, because the fallback interpolates
the user message into the reply — so there is no single static fallback
guidance text, contrary to the claim. -/
theorem C9_counterexample :
    (run_command driver_blank "hello" oracle_ok).actions_taken
        = [⟨"analyze_request", "completed"⟩]
    ∧ (run_command driver_blank "okay" oracle_ok).actions_taken
        = [⟨"analyze_request", "completed"⟩]
    ∧ (run_command driver_blank "hello" oracle_ok).response_content
        ≠ (run_command driver_blank "okay" oracle_ok).response_content := by
  decide

/-- C7 (amended): a `browser_control` request is answered with at most one
reply — a `browser_control_result` or an `error` — and is answered with no
reply at all exactly when the session, its agent and its driver are all
present but the request falls through the whole action chain: the action is
not one of navigate/click/scroll, or it is `navigate` without a truthy
`url` param (the param absent or an empty string), or `click` without both
coordinates. -/
theorem C7_reply_shape (m : SessionManager) (sid : String) (action : Option String)
    (params : ControlParams) (o : ControlOracle) :
    ((∃ e, (handle_browser_control m sid action params o).2 = [Event.error e])
      ∨ (∃ act success msg2, (handle_browser_control m sid action params o).2
            = [Event.browser_control_result act success msg2])
      ∨ (handle_browser_control m sid action params o).2 = [])
    ∧ ((handle_browser_control m sid action params o).2 = []
        ↔ ∃ s a d, get_session m sid = some s ∧ s.agent = some a ∧ a.driver = some d
            ∧ ¬(action = some "navigate" ∧ Option.getD params.url "" ≠ "")
            ∧ ¬(action = some "click" ∧ params.x.isSome = true ∧ params.y.isSome = true)
            ∧ action ≠ some "scroll") := by
  cases h : get_session m sid with
  | none =>
    refine ⟨Or.inl ⟨"No active session found", ?_⟩, ?_⟩
    · simp [handle_browser_control, h]
    · simp [handle_browser_control, h]
  | some s =>
    cases hag : s.agent with
    | none =>
      refine ⟨Or.inl ⟨"No active session found", ?_⟩, ?_⟩
      · simp [handle_browser_control, h, hag]
      · simp [handle_browser_control, h, hag]
    | some a =>
      cases hd : a.driver with
      | none =>
        refine ⟨Or.inl ⟨"Browser not initialized", ?_⟩, ?_⟩
        · simp [handle_browser_control, h, hag, hd]
        · simp [handle_browser_control, h, hag, hd]
      | some d =>
        by_cases hn : action = some "navigate"
        · cases hu : params.url with
          | some url =>
            by_cases hurl : url = ""
            · refine ⟨Or.inr (Or.inr ?_), ?_⟩
              · simp [handle_browser_control, h, hag, hd, hn, hu, hurl]
              · simp [handle_browser_control, h, hag, hd, hn, hu, hurl]
            · cases honav : o.nav_ok with
              | true =>
                refine ⟨Or.inr (Or.inl ⟨"navigate", true, "Navigated to " ++ url, ?_⟩), ?_⟩
                · simp [handle_browser_control, h, hag, hd, hn, hu, hurl, honav]
                · simp [handle_browser_control, h, hag, hd, hn, hu, hurl, honav]
              | false =>
                refine ⟨Or.inl ⟨"Browser control error: " ++ o.nav_err, ?_⟩, ?_⟩
                · simp [handle_browser_control, h, hag, hd, hn, hu, hurl, honav]
                · simp [handle_browser_control, h, hag, hd, hn, hu, hurl, honav]
          | none =>
            refine ⟨Or.inr (Or.inr ?_), ?_⟩
            · simp [handle_browser_control, h, hag, hd, hn, hu]
            · simp [handle_browser_control, h, hag, hd, hn, hu]
        · by_cases hcl : action = some "click"
          · cases hx : params.x with
            | some x =>
              cases hy : params.y with
              | some y =>
                refine ⟨Or.inl ⟨"Browser control error: " ++ o.click_err, ?_⟩, ?_⟩
                · simp [handle_browser_control, h, hag, hd, hn, hcl, hx, hy]
                · simp [handle_browser_control, h, hag, hd, hn, hcl, hx, hy]
              | none =>
                refine ⟨Or.inr (Or.inr ?_), ?_⟩
                · simp [handle_browser_control, h, hag, hd, hn, hcl, hx, hy]
                · simp [handle_browser_control, h, hag, hd, hn, hcl, hx, hy]
            | none =>
              refine ⟨Or.inr (Or.inr ?_), ?_⟩
              · simp [handle_browser_control, h, hag, hd, hn, hcl, hx]
              · simp [handle_browser_control, h, hag, hd, hn, hcl, hx]
          · by_cases hsc : action = some "scroll"
            · cases hok : o.script_ok with
              | true =>
                refine ⟨Or.inr (Or.inl
                  ⟨"scroll", true, "Scrolled " ++ Option.getD params.direction "down", ?_⟩), ?_⟩
                · simp [handle_browser_control, h, hag, hd, hn, hcl, hsc, hok]
                · simp [handle_browser_control, h, hag, hd, hn, hcl, hsc, hok]
              | false =>
                refine ⟨Or.inl ⟨"Browser control error: " ++ o.script_err, ?_⟩, ?_⟩
                · simp [handle_browser_control, h, hag, hd, hn, hcl, hsc, hok]
                · simp [handle_browser_control, h, hag, hd, hn, hcl, hsc, hok]
            · refine ⟨Or.inr (Or.inr ?_), ?_⟩
              · simp [handle_browser_control, h, hag, hd, hn, hcl, hsc]
              · simp [handle_browser_control, h, hag, hd, hn, hcl, hsc]

theorem C7_reply_shape_witness :
    (∃ e, (handle_browser_control store_live "s" (some "navigate") params_empty
        control_oracle_ok).2 = [Event.error e])
    ∨ (∃ act success msg2, (handle_browser_control store_live "s" (some "navigate")
        params_empty control_oracle_ok).2 = [Event.browser_control_result act success msg2])
    ∨ (handle_browser_control store_live "s" (some "navigate") params_empty
        control_oracle_ok).2 = [] := by
  have h := C7_reply_shape store_live "s" (some "navigate") params_empty control_oracle_ok
  exact h.1

/-- C7 (counterexample): a request with an unrecognized action value, a
navigate request without a url param, and a navigate request whose url
param is present but an empty string (falsy under the `if url:` test of
line 429) each complete with no reply at all — neither a
`browser_control_result` nor an `error` event is emitted — so the claim
that every request is answered with one of the two fails on the code. -/
theorem C7_counterexample :
    (handle_browser_control store_live "s" (some "zoom") params_empty
        control_oracle_ok).2 = []
    ∧ (handle_browser_control store_live "s" (some "navigate") params_empty
        control_oracle_ok).2 = []
    ∧ (handle_browser_control store_live "s" (some "navigate")
        { params_empty with url := some "" } control_oracle_ok).2 = [] := by
  decide

end WebApp
